import Mathlib

/-!
Shallow embedding of the Request Authorization & Orchestration Layer of the
ai-slop-detector backend (Cloudflare Workers + backing SQL store), and proofs
about it.

Conventions of the embedding:

* Clock values (`Date.now()` / `new Date()`) are naturals counting milliseconds
  since the epoch.  Every distinct clock read in the source is a distinct
  explicit parameter of the embedded function, in source order.
* ISO-8601 timestamp strings (`Date.prototype.toISOString`) are represented by
  the underlying millisecond value: on valid dates the ISO string is a strictly
  monotone injective image of the millisecond clock, so string equality and
  lexicographic comparison of such columns coincide with `=` and `<` on `Nat`.
  The date-only window key `toISOString().split('T')[0]` is represented by the
  day number `t / msPerDay`.
* The backing store is embedded as explicit typed tables (lists of rows), one
  per SQL table the services touch.  The services consume a store API whose
  statement results carry `data` / `error` fields, exactly as the TypeScript
  reads them; in normal operation (the scope of the claims below) statements do
  not report errors, and an UPDATE whose WHERE clause matches no row is a
  successful statement reporting no error (SQL / D1 / Supabase all agree on
  this), which is recorded by `dbUpdateUsage` always returning `error = none`.
* One-way hash functions (SHA-256, HMAC-SHA-256) and the base64/JSON payload
  codec are parameters of the embedding (they are external library calls in the
  source); theorems quantify over them, adding only hypotheses that are true of
  the real functions (e.g. base64 output contains no '.').
-/

/-- Milliseconds in 24 hours, the constant `24 * 60 * 60 * 1000` of the source. -/
def msPerDay : Nat := 24 * 60 * 60 * 1000

/-- Seconds in 24 hours, the JWT lifetime constant `24 * 60 * 60`. -/
def jwtLifetimeSeconds : Nat := 24 * 60 * 60

/-- `new Date(t).toISOString().split('T')[0]`: the calendar-day window key. -/
def dayKey (t : Nat) : Nat := t / msPerDay

/-- `tomorrow = new Date(t); tomorrow.setDate(+1); tomorrow.setHours(0,0,0,0)`:
midnight at the start of the next day. -/
def nextMidnight (t : Nat) : Nat := (t / msPerDay + 1) * msPerDay

/-- `Math.ceil(a / b)` on non-negative quantities. -/
def ceilDiv (a b : Nat) : Nat := (a + b - 1) / b

/-- Row of the `users` table (timestamps as milliseconds, see header). -/
structure UserRow where
  id : String
  google_id : String
  email : String
  name : String
  picture_url : String
  created_at : Nat
  last_login_at : Nat
  deriving Repr, DecidableEq

/-- Row of the `token_blacklist` table. -/
structure BlacklistRow where
  token_hash : String
  user_id : String
  expires_at : Nat
  deriving Repr, DecidableEq

/-- Row of the `usage_analytics` table; `created_at` holds the day window key. -/
structure UsageRow where
  user_id : String
  daily_count : Nat
  created_at : Nat
  deriving Repr, DecidableEq

/-- The stored classification payload of a cache row (`result` JSON column,
snake_case fields as written by `setCache`). -/
structure StoredResult where
  classification : String
  confidence_level : String
  confidence_score : Rat
  key_indicators : List String
  reasoning : String
  word_count : Nat
  provider : String
  analysis_time : Nat
  deriving Repr, DecidableEq

/-- Row of the `cache_entries` table. -/
structure CacheRow where
  url_hash : String
  content_hash : String
  last_modified : String
  full_url : String
  domain : String
  mode : String
  result : StoredResult
  created_at : Nat
  deriving Repr, DecidableEq

/-- The backing store: one typed table per SQL table the services touch. -/
structure Store where
  users : List UserRow
  blacklist : List BlacklistRow
  usage : List UsageRow
  cache : List CacheRow
  deriving Repr, DecidableEq

/-- A store with all tables empty. -/
def Store.empty : Store := ⟨[], [], [], []⟩

/-- Result shape of a `run()` statement as the services read it. -/
structure RunOutcome where
  error : Option String
  deriving Repr, DecidableEq

/-- `RateLimitResult` of `types/index.ts`. -/
structure RateLimitResult where
  allowed : Bool
  retryAfter : Option Nat
  message : Option String
  currentCount : Option Nat
  deriving Repr, DecidableEq

/-- `SELECT daily_count FROM usage_analytics WHERE user_id = ? AND created_at = ?
... .first()`: first row matching user and day. -/
def findUsage (s : Store) (userId : String) (day : Nat) : Option UsageRow :=
  s.usage.find? (fun r => r.user_id == userId && r.created_at == day)

/-- `UPDATE usage_analytics SET daily_count = daily_count + 1 WHERE user_id = ?
AND created_at = ? ... .run()`.  The statement is a success (reports no error)
whether it matched rows or not. -/
def dbUpdateUsage (s : Store) (userId : String) (day : Nat) : RunOutcome × Store :=
  (⟨none⟩,
   { s with
     usage := s.usage.map (fun r =>
       if r.user_id == userId && r.created_at == day then
         { r with daily_count := r.daily_count + 1 }
       else r) })

/-- `INSERT INTO usage_analytics (user_id, daily_count, created_at) VALUES (?, 1, ?)`. -/
def dbInsertUsage (s : Store) (userId : String) (day : Nat) : RunOutcome × Store :=
  (⟨none⟩, { s with usage := s.usage ++ [⟨userId, 1, day⟩] })

/-- `RateLimitService.incrementUsage`: try the UPDATE; only if the UPDATE
statement itself reported an error, fall back to the INSERT. -/
def incrementUsage (s : Store) (userId : String) (day : Nat) : Store :=
  let (updateOutcome, s1) := dbUpdateUsage s userId day
  match updateOutcome.error with
  | some _ => (dbInsertUsage s userId day).2
  | none => s1

/-- The `DAILY_LIMIT` constant of `RateLimitService`. -/
def DAILY_LIMIT : Nat := 50

/-- `RateLimitService.checkRateLimit`.  Clock reads in source order:
`t1` for `new Date().toISOString().split('T')[0]`, `t2` for the `new Date()`
seeding `tomorrow`, `t3` for the `Date.now()` in the retry computation. -/
def checkRateLimit (userId : String) (t1 t2 t3 : Nat) (s : Store) :
    RateLimitResult × Store :=
  if userId == "" then
    ({ allowed := false, retryAfter := none,
       message := some "User ID is required", currentCount := none }, s)
  else
    let today := dayKey t1
    let currentCount := ((findUsage s userId today).map (·.daily_count)).getD 0
    if DAILY_LIMIT ≤ currentCount then
      ({ allowed := false,
         retryAfter := some (ceilDiv (nextMidnight t2 - t3) 1000),
         message := some "Daily limit exceeded",
         currentCount := some currentCount }, s)
    else
      ({ allowed := true, retryAfter := none, message := none,
         currentCount := some (currentCount + 1) },
       incrementUsage s userId today)

/-- One `checkRateLimit` call viewed as a store transformer (all three clock
reads at the same instant `t`). -/
def rlStep (userId : String) (t : Nat) (s : Store) : Store :=
  (checkRateLimit userId t t t s).2

/-- `n`-fold iteration of a store transformer. -/
def iterStore (f : Store → Store) : Nat → Store → Store
  | 0, s => s
  | n + 1, s => iterStore f n (f s)

/-- Core of JavaScript `s.split(sep)` for a one-character separator, over the
character list: splits at every occurrence, keeping empty groups. -/
def splitCharList (sep : Char) : List Char → List (List Char)
  | [] => [[]]
  | ch :: rest =>
    if ch == sep then [] :: splitCharList sep rest
    else
      match splitCharList sep rest with
      | [] => [[ch]]
      | grp :: gs => (ch :: grp) :: gs

/-- JavaScript `s.split(sep)` for a one-character separator. -/
def jsSplit (sep : Char) (s : String) : List String :=
  (splitCharList sep s.data).map (fun l => ⟨l⟩)

/-- Drop `pat` from the front of `l`, if it is there. -/
def dropPat? (pat l : List Char) : Option (List Char) :=
  match pat, l with
  | [], rest => some rest
  | _ :: _, [] => none
  | p :: ps, c :: cs => if c == p then dropPat? ps cs else none

/-- Remove the first occurrence of `pat` from `l` (no change if absent). -/
def removeFirstPat (pat : List Char) : List Char → List Char
  | [] => []
  | c :: cs =>
    match dropPat? pat (c :: cs) with
    | some rest => rest
    | none => c :: removeFirstPat pat cs

/-- JavaScript `s.replace(pat, '')`: remove the first occurrence of `pat`. -/
def replaceFirst (s pat : String) : String := ⟨removeFirstPat pat.data s.data⟩

/-- JavaScript `s.startsWith(pat)`. -/
def strStartsWith (s pat : String) : Bool := pat.data.isPrefixOf s.data

/-- Decoded JWT payload (`JWTPayload` of `types/index.ts`); `iat`/`exp` are in
seconds, as produced by `Math.floor(Date.now() / 1000)`. -/
structure JWTPayload where
  userId : String
  email : String
  name : String
  iat : Nat
  exp : Nat
  deriving Repr, DecidableEq

/-- External cryptographic and codec primitives consumed by `AuthService`:
`createHMAC(data, secret)`, `createHash('sha256')...digest('hex')`, and the
base64/JSON payload codec (`base64Encode(JSON.stringify ·)` with its partial
inverse `JSON.parse(base64Decode ·)`). -/
structure CryptoModel where
  hmac : String → String → String
  sha256hex : String → String
  encHeader : String
  encPayload : JWTPayload → String
  decPayload : String → Option JWTPayload

/-- Payload built by `generateJWT`: two clock reads `t1` (for `iat`) and `t2`
(for `exp`), in source order. -/
def jwtPayloadFor (user : UserRow) (t1 t2 : Nat) : JWTPayload :=
  { userId := user.id, email := user.email, name := user.name,
    iat := t1 / 1000, exp := t2 / 1000 + jwtLifetimeSeconds }

/-- `AuthService.generateJWT`. -/
def generateJWT (c : CryptoModel) (user : UserRow) (secret : String) (t1 t2 : Nat) :
    String :=
  let encodedPayload := c.encPayload (jwtPayloadFor user t1 t2)
  let signature := c.hmac (c.encHeader ++ "." ++ encodedPayload) secret
  c.encHeader ++ "." ++ encodedPayload ++ "." ++ signature

/-- Failure modes of `verifyJWT`, in the order the source checks them. -/
inductive VerifyErr where
  | invalidFormat
  | invalidSignature
  | malformedPayload
  | expired
  deriving Repr, DecidableEq

/-- `AuthService.verifyJWT` at clock read `t` (the `Date.now()` of the expiry
check). -/
def verifyJWT (c : CryptoModel) (token secret : String) (t : Nat) :
    Except VerifyErr JWTPayload :=
  match jsSplit '.' token with
  | [encodedHeader, encodedPayload, signature] =>
    if signature ≠ c.hmac (encodedHeader ++ "." ++ encodedPayload) secret then
      .error .invalidSignature
    else
      match c.decPayload encodedPayload with
      | none => .error .malformedPayload
      | some payload =>
        if payload.exp < t / 1000 then .error .expired else .ok payload
  | _ => .error .invalidFormat

/-- `AuthService.checkTokenBlacklist` at clock read `t`: SELECT the first
unexpired record with this token's fingerprint; finding one is the failure. -/
def checkTokenBlacklist (c : CryptoModel) (token : String) (t : Nat) (s : Store) :
    Except String Unit :=
  let tokenHash := c.sha256hex token
  match s.blacklist.find? (fun r => r.token_hash == tokenHash && t < r.expires_at) with
  | some _ => .error "Token is blacklisted"
  | none => .ok ()

/-- `AuthService.addTokenToBlacklist` at clock read `t`: the record expiry is
`Date.now() + 24h`; the INSERT reports no error in normal operation. -/
def addTokenToBlacklist (c : CryptoModel) (token userId : String) (t : Nat)
    (s : Store) : Except String Unit × Store :=
  let tokenHash := c.sha256hex token
  let expiresAt := t + msPerDay
  (.ok (), { s with blacklist := s.blacklist ++ [⟨tokenHash, userId, expiresAt⟩] })

/-- Message carried by each `verifyJWT` failure in the source: the three fixed
throw strings, and — for a payload that fails to decode — a stand-in for the
message of the native error thrown by `base64Decode`/`JSON.parse` (its exact
text is environment-dependent; it is never the composite's opaque string). -/
def verifyErrMessage : VerifyErr → String
  | .invalidFormat => "Invalid token format"
  | .invalidSignature => "Invalid token signature"
  | .malformedPayload => "SyntaxError: unexpected token in JSON"
  | .expired => "Token expired"

/-- `AuthService.extractUserFromToken`: strips the scheme text, calls
`verifyJWT` (at clock `tv`) WITHOUT `await`, then awaits the blacklist check
(at clock `tb`) and finishes with a plain `return payload`.  The enclosing
try/catch therefore collapses only failures of the awaited blacklist check
into the opaque error; a rejection of the un-awaited `verifyJWT` promise is
adopted by the returned promise and surfaces to the caller with its original
message.  Result semantics: a blacklist failure yields the opaque error
(whatever `verifyJWT` did); otherwise a verify failure surfaces as its own
message; otherwise the payload is returned. -/
def extractUserFromToken (c : CryptoModel) (authorization secret : String)
    (tv tb : Nat) (s : Store) : Except String JWTPayload :=
  let token := replaceFirst authorization "Bearer "
  match checkTokenBlacklist c token tb s with
  | .error _ => .error "Authentication failed: Invalid token"
  | .ok _ =>
    match verifyJWT c token secret tv with
    | .error e => .error (verifyErrMessage e)
    | .ok payload => .ok payload

/-- `AuthMiddleware.requireAuth`; `none` models an absent Authorization header,
and an empty header string is falsy in the source's `if (!authorization)`. -/
def requireAuth (c : CryptoModel) (authorization : Option String) (secret : String)
    (tv tb : Nat) (s : Store) : Except String JWTPayload :=
  match authorization with
  | none => .error "Authentication required: Missing authorization header"
  | some auth =>
    if auth == "" then
      .error "Authentication required: Missing authorization header"
    else if ¬ strStartsWith auth "Bearer " then
      .error "Authentication required: Invalid authorization format"
    else
      match extractUserFromToken c auth secret tv tb s with
      | .ok payload => .ok payload
      | .error _ => .error "Authentication required: Invalid token"

/-- Fields of the Google tokeninfo response body that the service reads;
`sub`/`email`/`name`/`picture` are optional (the source guards with `|| ''`). -/
structure GoogleTokenInfo where
  sub : Option String
  email : Option String
  name : Option String
  picture : Option String
  aud : String
  deriving Repr, DecidableEq

/-- Outcome of the `fetch` to the Google tokeninfo endpoint: HTTP success flag
plus the parsed body. -/
structure GoogleFetchOutcome where
  ok : Bool
  info : GoogleTokenInfo
  deriving Repr, DecidableEq

/-- `AuthService.verifyGoogleToken`. -/
def verifyGoogleToken (resp : GoogleFetchOutcome) (clientId : String) :
    Except String GoogleTokenInfo :=
  if ¬ resp.ok then .error "Invalid Google ID token"
  else if resp.info.aud ≠ clientId then .error "Invalid client ID"
  else .ok resp.info

/-- `AuthService.findOrCreateUser`.  Clock reads: `tU` for the last-login
UPDATE in the existing-user branch; `tA` (created_at) and `tB` (last_login_at)
for the two `new Date()` calls of the new-user branch.  `uuid` is the
`crypto.randomUUID()` result.  The existing-user branch returns the row as it
was read, before the UPDATE. -/
def findOrCreateUser (info : GoogleTokenInfo) (uuid : String) (tU tA tB : Nat)
    (s : Store) : Except String UserRow × Store :=
  match s.users.find? (fun r => r.google_id == info.sub.getD "") with
  | some existingUser =>
    (.ok existingUser,
     { s with users := s.users.map (fun r =>
         if r.id == existingUser.id then { r with last_login_at := tU } else r) })
  | none =>
    let newUser : UserRow :=
      { id := uuid, google_id := info.sub.getD "", email := info.email.getD "",
        name := info.name.getD "", picture_url := info.picture.getD "",
        created_at := tA, last_login_at := tB }
    (.ok newUser, { s with users := s.users ++ [newUser] })

/-- `AuthResponse` of `types/index.ts`. -/
structure AuthResponse where
  token : String
  user : UserRow
  isNewUser : Bool
  deriving Repr, DecidableEq

/-- `AuthService.authenticateWithGoogle`; `tI1`/`tI2` are the two clock reads
of `generateJWT`.  The enclosing catch collapses every failure into one error. -/
def authenticateWithGoogle (c : CryptoModel) (resp : GoogleFetchOutcome)
    (clientId secret uuid : String) (tU tA tB tI1 tI2 : Nat) (s : Store) :
    Except String AuthResponse × Store :=
  match verifyGoogleToken resp clientId with
  | .error _ => (.error "Failed to authenticate with Google", s)
  | .ok info =>
    match findOrCreateUser info uuid tU tA tB s with
    | (.error _, s1) => (.error "Failed to authenticate with Google", s1)
    | (.ok user, s1) =>
      let token := generateJWT c user secret tI1 tI2
      (.ok { token := token, user := user,
             isNewUser := user.created_at == user.last_login_at }, s1)

/-- A string without the separator character, e.g. a base64 or hex digest
viewed against '.' or '_'. -/
abbrev sepFreeStr (sep : Char) (s : String) : Prop := ∀ c ∈ s.data, (c == sep) = false

/-- Replace '.' to keep an output separator-free, for the concrete instance. -/
def stripDots (s : String) : String :=
  ⟨s.data.map (fun ch => if ch == '.' then '|' else ch)⟩

/-- Concrete payload encoder for instantiating `CryptoModel` in witnesses. -/
def encPayloadC (p : JWTPayload) : String :=
  "P" ++ String.intercalate ";" [p.userId, p.email, p.name, toString p.iat, toString p.exp]

/-- Decimal digit-list parser used by the concrete payload decoder. -/
def digitsToNat : Nat → List Char → Option Nat
  | acc, [] => some acc
  | acc, c :: cs =>
    if c.isDigit then digitsToNat (acc * 10 + (c.toNat - 48)) cs else none

/-- Decimal string parser used by the concrete payload decoder. -/
def strToNat? (s : String) : Option Nat :=
  match s.data with
  | [] => none
  | l => digitsToNat 0 l

/-- Concrete payload decoder, a left inverse of `encPayloadC` on
semicolon-free fields. -/
def decPayloadC (s : String) : Option JWTPayload :=
  match jsSplit ';' (⟨s.data.drop 1⟩ : String) with
  | [a, b, c, d, e] =>
    match strToNat? d, strToNat? e with
    | some i, some x => some ⟨a, b, c, i, x⟩
    | _, _ => none
  | _ => none

/-- A concrete `CryptoModel` used to evaluate theorems on explicit inputs. -/
def cryptoC : CryptoModel :=
  { hmac := fun data secret => "H" ++ stripDots (secret ++ "/" ++ data),
    sha256hex := fun s => "S" ++ s,
    encHeader := "HDR",
    encPayload := encPayloadC,
    decPayload := decPayloadC }

/-- A concrete user row for explicit evaluations. -/
def user0 : UserRow :=
  { id := "u1", google_id := "g1", email := "e@x", name := "Ann",
    picture_url := "pic", created_at := 0, last_login_at := 0 }

/-- JavaScript `s.trim()`. -/
def jsTrim (s : String) : String :=
  ⟨((s.data.dropWhile (·.isWhitespace)).reverse.dropWhile (·.isWhitespace)).reverse⟩

/-- JavaScript `s.toLowerCase()` (ASCII case folding). -/
def jsToLower (s : String) : String := ⟨s.data.map Char.toLower⟩

/-- Analysis mode, the closed set `'quick' | 'deep'`. -/
inductive Mode where
  | quick
  | deep
  deriving Repr, DecidableEq

/-- String interpolation of a mode value. -/
def modeStr : Mode → String
  | .quick => "quick"
  | .deep => "deep"

/-- `AnalysisRequest` of `types/index.ts`; `lastModified` is optional. -/
structure AnalysisRequest where
  url : String
  text : String
  userId : String
  mode : Mode
  lastModified : Option String
  deriving Repr, DecidableEq

/-- Result metadata (camelCase shape); `cacheCreatedAt` is the optional field
only ever set when a result is rebuilt from a cache row. -/
structure ResultMetadata where
  wordCount : Nat
  provider : String
  analysisTime : Nat
  cacheCreatedAt : Option Nat
  deriving Repr, DecidableEq

/-- `AnalysisResult` of `types/index.ts`; JSON numbers are embedded as `Rat`
(they are only ever copied, never computed with). -/
structure AnalysisResult where
  classification : String
  confidenceLevel : String
  confidenceScore : Rat
  keyIndicators : List String
  reasoning : String
  metadata : ResultMetadata
  deriving Repr, DecidableEq

/-- `ApiResponse`: the analysis result spread together with `cacheStatus`. -/
structure ApiResponse where
  result : AnalysisResult
  cacheStatus : String
  deriving Repr, DecidableEq

/-- `CacheService.generateCacheKey`, parameterized by the SHA-256 hex digest
function `h`; `substring(0, 16)` is `List.take 16` on the digest characters. -/
def generateCacheKey (h : String → String) (r : AnalysisRequest) : String :=
  let contentHash : String := ⟨(h (jsToLower (jsTrim r.text))).data.take 16⟩
  let urlHash : String := ⟨(h (jsToLower r.url)).data.take 16⟩
  urlHash ++ "_" ++ contentHash ++ "_" ++ modeStr r.mode

/-- `cacheKey.split('_')[i]` as the services use it (JS indexing of a short
array yields `undefined`, bound as an empty no-match value). -/
def keyPart (key : String) (i : Nat) : String := (jsSplit '_' key).getD i ""

/-- `CacheService.convertCacheEntryToResult`: the one place that sets
`metadata.cacheCreatedAt`. -/
def convertCacheEntryToResult (row : CacheRow) : AnalysisResult :=
  { classification := row.result.classification,
    confidenceLevel := row.result.confidence_level,
    confidenceScore := row.result.confidence_score,
    keyIndicators := row.result.key_indicators,
    reasoning := row.result.reasoning,
    metadata := { wordCount := row.result.word_count,
                  provider := row.result.provider,
                  analysisTime := row.result.analysis_time,
                  cacheCreatedAt := some row.created_at } }

/-- `CacheService.deleteCache`: DELETE every row matching the key triple. -/
def deleteCache (key : String) (s : Store) : Store :=
  { s with cache := s.cache.filter (fun r =>
      ¬(r.url_hash == keyPart key 0 && r.content_hash == keyPart key 1 &&
        r.mode == keyPart key 2)) }

/-- `CacheService.getCache` at clock read `t`: point lookup on the key triple;
a row older than 24 hours is deleted and treated as absent. -/
def getCache (key : String) (t : Nat) (s : Store) : Option AnalysisResult × Store :=
  match s.cache.find? (fun r =>
      r.url_hash == keyPart key 0 && r.content_hash == keyPart key 1 &&
      r.mode == keyPart key 2) with
  | none => (none, s)
  | some row =>
    if msPerDay < t - row.created_at then (none, deleteCache key s)
    else (some (convertCacheEntryToResult row), s)

/-- Stand-in for `Date.prototype.toISOString` where the produced string is only
stored, never compared (the `last_modified` column): an injective image. -/
def isoOf (t : Nat) : String := toString t

/-- `CacheService.setCache`.  `hostOf` embeds `new URL(url).hostname`; `none`
models the URL constructor throwing, which the enclosing catch turns into a
no-op store.  Clock reads: `t1` for the `lastModified` fallback, `t2` for
`created_at`.  The INSERT reports no error in normal operation. -/
def setCache (hostOf : String → Option String) (key : String)
    (result : AnalysisResult) (r : AnalysisRequest) (t1 t2 : Nat) (s : Store) :
    Store :=
  match hostOf r.url with
  | none => s
  | some domain =>
    let lastMod := match r.lastModified with
      | some v => if v == "" then isoOf t1 else v
      | none => isoOf t1
    { s with cache := s.cache ++
      [{ url_hash := keyPart key 0, content_hash := keyPart key 1,
         last_modified := lastMod, full_url := r.url, domain := domain,
         mode := keyPart key 2,
         result := { classification := result.classification,
                     confidence_level := result.confidenceLevel,
                     confidence_score := result.confidenceScore,
                     key_indicators := result.keyIndicators,
                     reasoning := result.reasoning,
                     word_count := result.metadata.wordCount,
                     provider := result.metadata.provider,
                     analysis_time := result.metadata.analysisTime },
         created_at := t2 }] }

/-- Body fields of a provider HTTP response that the service reads: the
success flag and the extracted completion text
(`data.choices[0]?.message?.content` resp. `data.content[0]?.text`). -/
structure ProviderResponse where
  ok : Bool
  analysis : Option String
  deriving Repr, DecidableEq

/-- Outcome of one provider `fetch`: the call threw (network error, timeout,
body parse throw), or returned a response. -/
inductive FetchOutcome where
  | threw
  | resp (r : ProviderResponse)
  deriving Repr, DecidableEq

/-- Fields read out of the JSON object embedded in a provider completion;
`keyIndicators` is optional (the source guards with `|| []`). -/
structure ParsedAnalysis where
  classification : String
  confidenceLevel : String
  confidenceScore : Rat
  keyIndicators : Option (List String)
  reasoning : String
  deriving Repr, DecidableEq

/-- `AnalysisService.parseAnalysisResult`, parameterized by `jsonParse`, the
embedding of the `/\x7b[\s\S]*\x7d/` match followed by `JSON.parse`; `none`
models no-match or a parse throw. -/
def parseAnalysisResult (jsonParse : String → Option ParsedAnalysis)
    (analysis provider : String) (wordCount : Nat) : Except String AnalysisResult :=
  match jsonParse analysis with
  | none => .error "Failed to parse AI analysis result"
  | some parsed =>
    .ok { classification := parsed.classification,
          confidenceLevel := parsed.confidenceLevel,
          confidenceScore := parsed.confidenceScore,
          keyIndicators := parsed.keyIndicators.getD [],
          reasoning := parsed.reasoning,
          metadata := { wordCount := wordCount, provider := provider,
                        analysisTime := 0, cacheCreatedAt := none } }

/-- Whitespace-run counter underlying `text.trim().split(/\s+/).length`. -/
def countRuns : Bool → List Char → Nat
  | _, [] => 0
  | inGroup, c :: cs =>
    if c.isWhitespace then countRuns false cs
    else (if inGroup then 0 else 1) + countRuns true cs

/-- `text.trim().split(/\s+/).length` (an empty trimmed string still splits to
one element in JavaScript). -/
def jsWordCount (s : String) : Nat :=
  let tr := jsTrim s
  if tr.data = [] then 1 else countRuns false tr.data

/-- `AnalysisService.analyzeWithOpenAI` over the fetch outcome `o`. -/
def analyzeWithOpenAI (jsonParse : String → Option ParsedAnalysis)
    (req : AnalysisRequest) (o : FetchOutcome) : Except String AnalysisResult :=
  let wordCount := jsWordCount req.text
  match o with
  | .threw => .error "fetch failed"
  | .resp r =>
    if ¬ r.ok then .error "OpenAI API error"
    else
      match r.analysis with
      | none => .error "Invalid response from OpenAI"
      | some a => parseAnalysisResult jsonParse a "openai" wordCount

/-- `AnalysisService.analyzeWithAnthropic` over the fetch outcome `o`. -/
def analyzeWithAnthropic (jsonParse : String → Option ParsedAnalysis)
    (req : AnalysisRequest) (o : FetchOutcome) : Except String AnalysisResult :=
  let wordCount := jsWordCount req.text
  match o with
  | .threw => .error "fetch failed"
  | .resp r =>
    if ¬ r.ok then .error "Anthropic API error"
    else
      match r.analysis with
      | none => .error "Invalid response from Anthropic"
      | some a => parseAnalysisResult jsonParse a "anthropic" wordCount

/-- Observable side effects of one orchestrated call, in order. -/
inductive Event where
  | rateLimitCheck
  | cacheLookup
  | providerCall (name : String)
  | cacheWrite
  deriving Repr, DecidableEq

/-- Overwrite `metadata.analysisTime`, as `performAnalysis` does on success. -/
def withAnalysisTime (r : AnalysisResult) (dt : Nat) : AnalysisResult :=
  { r with metadata := { r.metadata with analysisTime := dt } }

/-- `AnalysisService.performAnalysis`: primary provider, fallback to the
secondary on any failure, terminal error when both fail.  `o1`/`o2` are the two
fetch outcomes; `tS`/`tE` the start/end clock reads. -/
def performAnalysis (jsonParse : String → Option ParsedAnalysis)
    (req : AnalysisRequest) (o1 o2 : FetchOutcome) (tS tE : Nat) :
    Except String AnalysisResult × List Event :=
  match analyzeWithOpenAI jsonParse req o1 with
  | .ok result => (.ok (withAnalysisTime result (tE - tS)), [.providerCall "openai"])
  | .error _ =>
    match analyzeWithAnthropic jsonParse req o2 with
    | .ok result =>
      (.ok (withAnalysisTime result (tE - tS)),
       [.providerCall "openai", .providerCall "anthropic"])
    | .error _ =>
      (.error "Content analysis failed. Please try again later.",
       [.providerCall "openai", .providerCall "anthropic"])

/-- Render of `rateLimitResult.retryAfter` inside the thrown template string. -/
def retryAfterText : Option Nat → String
  | some n => toString n
  | none => "undefined"

/-- `AnalysisService.analyzeContent`: rate limit, then cache lookup, then
provider analysis, then cache write.  Returns the outcome, the final store and
the event trace.  Clock reads: `tr1 tr2 tr3` inside `checkRateLimit`, `tg`
inside `getCache`, `tS tE` inside `performAnalysis`, `tc1 tc2` inside
`setCache`. -/
def analyzeContent (jsonParse : String → Option ParsedAnalysis)
    (hostOf : String → Option String) (h : String → String)
    (req : AnalysisRequest) (userId : String) (o1 o2 : FetchOutcome)
    (tr1 tr2 tr3 tg tS tE tc1 tc2 : Nat) (s : Store) :
    Except String ApiResponse × Store × List Event :=
  let (rl, s1) := checkRateLimit userId tr1 tr2 tr3 s
  if ¬ rl.allowed then
    (.error ("Rate limit exceeded. Retry after " ++ retryAfterText rl.retryAfter ++
       " seconds"), s1, [.rateLimitCheck])
  else
    let cacheKey := generateCacheKey h req
    match getCache cacheKey tg s1 with
    | (some cachedResult, s2) =>
      (.ok { result := cachedResult, cacheStatus := "hit" }, s2,
       [.rateLimitCheck, .cacheLookup])
    | (none, s2) =>
      match performAnalysis jsonParse req o1 o2 tS tE with
      | (.error e, evs) => (.error e, s2, .rateLimitCheck :: .cacheLookup :: evs)
      | (.ok result, evs) =>
        let s3 := setCache hostOf cacheKey result req tc1 tc2 s2
        (.ok { result := result, cacheStatus := "miss" }, s3,
         (.rateLimitCheck :: .cacheLookup :: evs) ++ [.cacheWrite])

/-- Count of provider invocations in a trace. -/
def providerCalls (evs : List Event) : Nat :=
  evs.countP (fun e => match e with | .providerCall _ => true | _ => false)

/-- A stored user row for explicit evaluations: exactly one prior sign-in, so
`last_login_at` still equals `created_at`. -/
def user7 : UserRow :=
  { id := "u7", google_id := "g7", email := "e7", name := "N",
    picture_url := "", created_at := 42, last_login_at := 42 }

/-- A store holding only `user7`. -/
def store7 : Store := { users := [user7], blacklist := [], usage := [], cache := [] }

/-- A successful Google tokeninfo response for `user7`'s subject. -/
def resp7 : GoogleFetchOutcome :=
  { ok := true,
    info := { sub := some "g7", email := some "e7", name := some "N",
              picture := none, aud := "cid" } }

/-- A concrete stand-in digest function for explicit evaluations: outputs are
underscore-free and at least 16 characters long, like a real hex digest. -/
def hashC (s : String) : String :=
  ⟨s.data.map (fun _ => 'a') ++ List.replicate 16 'b'⟩

/-- A concrete quick-mode analysis request for explicit evaluations. -/
def reqQ : AnalysisRequest :=
  { url := "https://a", text := "hello world", userId := "u1", mode := .quick,
    lastModified := none }

/-- A concrete parse function embedding a provider completion that never
contains the expected JSON object. -/
def parseNone : String → Option ParsedAnalysis := fun _ => none

/-- A concrete parse function embedding provider completions that always carry
a well-formed JSON object. -/
def parseOk : String → Option ParsedAnalysis :=
  fun _ => some { classification := "ai-generated", confidenceLevel := "high",
                  confidenceScore := 1, keyIndicators := some ["k"],
                  reasoning := "r" }

/-- A concrete embedding of `new URL(url).hostname` for explicit evaluations. -/
def hostC : String → Option String := fun _ => some "a"

/-- A store whose usage table already holds an exhausted counter for `u1`. -/
def storeRL : Store :=
  { users := [], blacklist := [], usage := [⟨"u1", 50, 0⟩], cache := [] }

/-- The classification payload of a response without the cache annotations
(`cacheStatus` is outside it; `metadata.cacheCreatedAt` is the field only the
cache-hit path sets). -/
def corePayload (r : AnalysisResult) :
    String × String × Rat × List String × String × Nat × String × Nat :=
  (r.classification, r.confidenceLevel, r.confidenceScore, r.keyIndicators,
   r.reasoning, r.metadata.wordCount, r.metadata.provider, r.metadata.analysisTime)

/-- First concrete `analyzeContent` run (cache miss at time 0, result cached
with `created_at = 7`). -/
def run1 : Except String ApiResponse × Store × List Event :=
  analyzeContent parseOk hostC hashC reqQ "u1"
    (.resp { ok := true, analysis := some "x" }) .threw 0 0 0 0 0 5 0 7 Store.empty

/-- Second concrete `analyzeContent` run, identical request against the store
left by `run1`, within the TTL window. -/
def run2 : Except String ApiResponse × Store × List Event :=
  analyzeContent parseOk hostC hashC reqQ "u1"
    (.resp { ok := true, analysis := some "x" }) .threw 1 1 1 8 9 9 9 9 run1.2.1

/-- The concrete fresh result produced in `run1` (word count 2 for
"hello world", provider openai, measured time 5). -/
def resultX : AnalysisResult :=
  { classification := "ai-generated", confidenceLevel := "high",
    confidenceScore := 1, keyIndicators := ["k"], reasoning := "r",
    metadata := { wordCount := 2, provider := "openai", analysisTime := 5,
                  cacheCreatedAt := none } }

/-! ## Theorems -/

theorem splitCharList_sepFree (sep : Char) (l : List Char)
    (h : ∀ c ∈ l, (c == sep) = false) : splitCharList sep l = [l] := by
  induction l with
  | nil => rfl
  | cons c cs ih =>
    have hc : (c == sep) = false := h c (by simp)
    have ih' := ih (fun x hx => h x (by simp [hx]))
    simp [splitCharList, hc, ih']

theorem splitCharList_append (sep : Char) (l1 l2 : List Char)
    (h : ∀ c ∈ l1, (c == sep) = false) :
    splitCharList sep (l1 ++ sep :: l2) = l1 :: splitCharList sep l2 := by
  induction l1 with
  | nil => simp [splitCharList]
  | cons c cs ih =>
    have hc : (c == sep) = false := h c (by simp)
    have ih' := ih (fun x hx => h x (by simp [hx]))
    simp [splitCharList, hc, ih']

/-- Splitting `a.b.c` on the separator recovers the three separator-free
components. -/
theorem jsSplit_triple (sep : Char) (a b c : String)
    (ha : sepFreeStr sep a) (hb : sepFreeStr sep b) (hc : sepFreeStr sep c) :
    jsSplit sep (a ++ ⟨[sep]⟩ ++ b ++ ⟨[sep]⟩ ++ c) = [a, b, c] := by
  unfold jsSplit
  have hdata : (a ++ ⟨[sep]⟩ ++ b ++ ⟨[sep]⟩ ++ c : String).data
      = a.data ++ sep :: (b.data ++ sep :: c.data) := by
    simp [String.data_append]
  rw [hdata, splitCharList_append sep a.data _ ha,
      splitCharList_append sep b.data _ hb, splitCharList_sepFree sep c.data hc]
  simp

set_option maxRecDepth 4000 in
/-- C2: the claim says the first `checkRateLimit` call of the day creates a
counter row with count 1 and the 51st call of the day returns `allowed = false`.
The code diverges: `incrementUsage` only INSERTs when the UPDATE statement
errors, and an UPDATE matching no row is a successful statement, so no counter
row is ever created; after 50 completed calls the table is still empty and the
51st call returns `allowed = true` with `currentCount = 1` again. -/
theorem checkRateLimit_51st_call_still_allowed :
    (iterStore (rlStep "u1" 0) 50 Store.empty).usage = [] ∧
    (checkRateLimit "u1" 0 0 0 (iterStore (rlStep "u1" 0) 50 Store.empty)).1 =
      { allowed := true, retryAfter := none, message := none,
        currentCount := some 1 } := by
  constructor <;> rfl

/-- C9 counterexample: a token whose own decoded expiry is at millisecond
86400000 is revoked at time 5000, and the inserted revocation record expires at
86405000 — not at the token's own expiry, refuting the claim that the record
expiry is copied from the token. -/
theorem blacklist_expiry_not_copied_from_token :
    ((addTokenToBlacklist cryptoC (generateJWT cryptoC user0 "sec" 0 0) "u1" 5000
        Store.empty).2.blacklist.map (·.expires_at) = [86405000]) ∧
    ((verifyJWT cryptoC (generateJWT cryptoC user0 "sec" 0 0) "sec" 0).toOption.map
        (fun p => p.exp * 1000) = some 86400000) ∧
    (86405000 : Nat) ≠ 86400000 :=
  ⟨rfl, rfl, by decide⟩

/-- C9 (amended): `addTokenToBlacklist` inserts a revocation record whose
expiry is the revocation-time clock read plus 24 hours, for every token,
independent of the expiry carried inside the token itself. -/
theorem addTokenToBlacklist_expiry_is_revocation_time_plus_24h
    (c : CryptoModel) (token userId : String) (t : Nat) (s : Store) :
    addTokenToBlacklist c token userId t s =
      (.ok (), { s with blacklist := s.blacklist ++
        [{ token_hash := c.sha256hex token, user_id := userId,
           expires_at := t + msPerDay }] }) := rfl

/-- C3 counterexample: an absent Authorization header is surfaced as
'Authentication required: Missing authorization header', a different error
than the 'Authentication required: Invalid token' surfaced for a failing
bearer token, so a caller can tell which check failed, refuting the
single-opaque-error claim for the scheme-prefix checks. -/
theorem requireAuth_reveals_missing_header_check :
    requireAuth cryptoC none "sec" 0 0 Store.empty =
      .error "Authentication required: Missing authorization header" ∧
    requireAuth cryptoC (some "token without scheme") "sec" 0 0 Store.empty =
      .error "Authentication required: Invalid authorization format" ∧
    requireAuth cryptoC (some "Bearer bad") "sec" 0 0 Store.empty =
      .error "Authentication required: Invalid token" ∧
    ("Authentication required: Missing authorization header" ≠
      "Authentication required: Invalid token") ∧
    ("Authentication required: Invalid authorization format" ≠
      "Authentication required: Invalid token") :=
  ⟨rfl, rfl, rfl, by decide, by decide⟩

/-- C3 (amended): with the Authorization header present and carrying the
Bearer scheme, `requireAuth` (whose `return await` puts every rejection inside
its try/catch) either succeeds or fails with exactly 'Authentication required:
Invalid token', collapsing invalid-signature, expired, malformed-payload and
revoked failures alike; missing-header and malformed-scheme failures get their
own distinct `requireAuth` messages.  `extractUserFromToken` itself collapses
only the awaited blacklist-check failures into 'Authentication failed: Invalid
token'; because its `verifyJWT` call is not awaited and `return payload`
bypasses the try/catch, a verify failure surfaces out of it with its original
message, which is never the opaque one. -/
theorem bearer_failures_collapse_to_single_error
    (c : CryptoModel) (auth secret : String) (tv tb : Nat) (s : Store)
    (hpre : strStartsWith auth "Bearer " = true) :
    ((∃ p, requireAuth c (some auth) secret tv tb s = .ok p) ∨
      requireAuth c (some auth) secret tv tb s =
        .error "Authentication required: Invalid token") ∧
    (∀ eb, checkTokenBlacklist c (replaceFirst auth "Bearer ") tb s = .error eb →
      extractUserFromToken c auth secret tv tb s =
        .error "Authentication failed: Invalid token") ∧
    (∀ u e, checkTokenBlacklist c (replaceFirst auth "Bearer ") tb s = .ok u →
      verifyJWT c (replaceFirst auth "Bearer ") secret tv = .error e →
      extractUserFromToken c auth secret tv tb s = .error (verifyErrMessage e) ∧
      verifyErrMessage e ≠ "Authentication failed: Invalid token") := by
  refine ⟨?_, ?_, ?_⟩
  · have hne : (auth == "") = false := by
      cases h : auth == "" with
      | false => rfl
      | true =>
        exfalso
        have : auth = "" := by simpa using h
        subst this
        simp [strStartsWith, List.isPrefixOf] at hpre
    unfold requireAuth
    cases hx : extractUserFromToken c auth secret tv tb s with
    | ok p => left; exact ⟨p, by simp [hne, hpre, hx]⟩
    | error e => right; simp [hne, hpre, hx]
  · intro eb hb
    unfold extractUserFromToken
    simp [hb]
  · intro u e hb hv
    refine ⟨?_, by cases e <;> simp [verifyErrMessage]⟩
    unfold extractUserFromToken
    simp [hb, hv]

/-- C3 witness: the amended theorem applied to a concrete bearer token whose
verification fails — `requireAuth` collapses the failure, while
`extractUserFromToken` lets the original verify message through. -/
theorem bearer_failures_collapse_witness :
    ((∃ p, requireAuth cryptoC (some "Bearer bad") "sec" 0 0 Store.empty = .ok p) ∨
      requireAuth cryptoC (some "Bearer bad") "sec" 0 0 Store.empty =
        .error "Authentication required: Invalid token") ∧
    extractUserFromToken cryptoC "Bearer bad" "sec" 0 0 Store.empty =
      .error (verifyErrMessage .invalidFormat) ∧
    verifyErrMessage VerifyErr.invalidFormat ≠ "Authentication failed: Invalid token" :=
  ⟨(bearer_failures_collapse_to_single_error cryptoC "Bearer bad" "sec" 0 0
      Store.empty (by decide)).1,
   ((bearer_failures_collapse_to_single_error cryptoC "Bearer bad" "sec" 0 0
      Store.empty (by decide)).2.2 () VerifyErr.invalidFormat rfl rfl).1,
   ((bearer_failures_collapse_to_single_error cryptoC "Bearer bad" "sec" 0 0
      Store.empty (by decide)).2.2 () VerifyErr.invalidFormat rfl rfl).2⟩

/-- Specialization of `jsSplit_triple` to the '.' separator of JWTs. -/
theorem jsSplit_dot_triple (a b c : String) (ha : sepFreeStr '.' a)
    (hb : sepFreeStr '.' b) (hc : sepFreeStr '.' c) :
    jsSplit '.' (a ++ "." ++ b ++ "." ++ c) = [a, b, c] :=
  jsSplit_triple '.' a b c ha hb hc

/-- C1: after a successful `addTokenToBlacklist` on a token, a subsequent
`extractUserFromToken` presenting that exact token fails with the opaque
authentication-failed error while the revocation record is unexpired
(`tc < tb + 24h`), even though `verifyJWT` alone still succeeds on the token. -/
theorem authenticate_fails_after_revoke
    (c : CryptoModel) (auth tok secret userId : String) (tb tv tc : Nat) (s : Store)
    (hrepl : replaceFirst auth "Bearer " = tok)
    (hver : ∃ p, verifyJWT c tok secret tv = .ok p)
    (hunexp : tc < tb + msPerDay) :
    (addTokenToBlacklist c tok userId tb s).1 = .ok () ∧
    extractUserFromToken c auth secret tv tc (addTokenToBlacklist c tok userId tb s).2 =
      .error "Authentication failed: Invalid token" := by
  obtain ⟨p, hp⟩ := hver
  refine ⟨rfl, ?_⟩
  have hbl : checkTokenBlacklist c tok tc (addTokenToBlacklist c tok userId tb s).2 =
      .error "Token is blacklisted" := by
    unfold checkTokenBlacklist addTokenToBlacklist
    have hsome : ((s.blacklist ++
        [({ token_hash := c.sha256hex tok, user_id := userId,
            expires_at := tb + msPerDay } : BlacklistRow)]).find?
        (fun r : BlacklistRow =>
          r.token_hash == c.sha256hex tok && decide (tc < r.expires_at))).isSome := by
      rw [List.find?_isSome]
      exact ⟨{ token_hash := c.sha256hex tok, user_id := userId,
               expires_at := tb + msPerDay }, by simp, by simp [hunexp]⟩
    obtain ⟨x, hx⟩ := Option.isSome_iff_exists.mp hsome
    simp only []
    rw [hx]
  unfold extractUserFromToken
  simp only [hrepl, hp, hbl]

/-- C1 witness: a concretely issued, still-valid token is revoked and then
rejected by `extractUserFromToken`. -/
theorem authenticate_fails_after_revoke_witness :
    (addTokenToBlacklist cryptoC (generateJWT cryptoC user0 "sec" 0 0) "u1" 0
      Store.empty).1 = .ok () ∧
    extractUserFromToken cryptoC ("Bearer " ++ generateJWT cryptoC user0 "sec" 0 0)
      "sec" 0 100
      (addTokenToBlacklist cryptoC (generateJWT cryptoC user0 "sec" 0 0) "u1" 0
        Store.empty).2 =
      .error "Authentication failed: Invalid token" :=
  authenticate_fails_after_revoke cryptoC
    ("Bearer " ++ generateJWT cryptoC user0 "sec" 0 0)
    (generateJWT cryptoC user0 "sec" 0 0) "sec" "u1" 0 0 100 Store.empty
    rfl ⟨jwtPayloadFor user0 0 0, rfl⟩ (by decide)

/-- C4 counterexample: `generateJWT` reads the clock twice (`iat` and `exp` are
separate `Date.now()` calls); if the millisecond clock ticks from 999 to 1000
between them, the freshly issued token verifies before expiry with the right
subject, but `exp - iat` is 86401, not the configured lifetime of 86400. -/
theorem issue_clock_tick_inflates_lifetime :
    (verifyJWT cryptoC (generateJWT cryptoC user0 "sec" 999 1000) "sec" 1500).toOption.map
      (fun p => (p.userId, p.exp - p.iat)) = some ("u1", 86401) ∧
    (86401 : Nat) ≠ jwtLifetimeSeconds :=
  ⟨rfl, by decide⟩

/-- C4 (amended): whenever the two issuance clock reads fall in the same whole
second (in particular when no tick intervenes), verifying a freshly issued
token before its expiry succeeds and returns claims whose `userId` is the
identity's id and whose `exp - iat` is exactly the configured 24-hour lifetime.
The separator-freedom and decode hypotheses state facts true of the real
base64/JSON codec. -/
theorem issue_then_verify_subject_and_lifetime
    (c : CryptoModel) (user : UserRow) (secret : String) (t1 t2 tv : Nat)
    (hehf : sepFreeStr '.' c.encHeader)
    (hepf : sepFreeStr '.' (c.encPayload (jwtPayloadFor user t1 t2)))
    (hsigf : sepFreeStr '.'
      (c.hmac (c.encHeader ++ "." ++ c.encPayload (jwtPayloadFor user t1 t2)) secret))
    (hdec : c.decPayload (c.encPayload (jwtPayloadFor user t1 t2)) =
      some (jwtPayloadFor user t1 t2))
    (hsame : t1 / 1000 = t2 / 1000)
    (hfresh : tv / 1000 ≤ (jwtPayloadFor user t1 t2).exp) :
    verifyJWT c (generateJWT c user secret t1 t2) secret tv =
      .ok (jwtPayloadFor user t1 t2) ∧
    (jwtPayloadFor user t1 t2).userId = user.id ∧
    (jwtPayloadFor user t1 t2).exp - (jwtPayloadFor user t1 t2).iat =
      jwtLifetimeSeconds := by
  refine ⟨?_, rfl, ?_⟩
  · have hsplit := jsSplit_dot_triple c.encHeader
      (c.encPayload (jwtPayloadFor user t1 t2))
      (c.hmac (c.encHeader ++ "." ++ c.encPayload (jwtPayloadFor user t1 t2)) secret)
      hehf hepf hsigf
    unfold verifyJWT generateJWT
    rw [hsplit]
    simp [hdec, Nat.not_lt.mpr hfresh]
  · simp only [jwtPayloadFor, jwtLifetimeSeconds]
    omega

/-- C4 witness: the amended theorem evaluated at a concrete identity and
clock. -/
theorem issue_then_verify_witness :
    verifyJWT cryptoC (generateJWT cryptoC user0 "sec" 0 0) "sec" 0 =
      .ok (jwtPayloadFor user0 0 0) ∧
    (jwtPayloadFor user0 0 0).userId = user0.id ∧
    (jwtPayloadFor user0 0 0).exp - (jwtPayloadFor user0 0 0).iat =
      jwtLifetimeSeconds :=
  issue_then_verify_subject_and_lifetime cryptoC user0 "sec" 0 0 0
    (by decide) (by decide) (by decide) rfl rfl (by decide)

/-- C10: a successful Google sign-in for an existing user computes `isNewUser`
by comparing `created_at` with `last_login_at` on the row as it was read before
this sign-in's last-login UPDATE; in particular a user whose stored
`last_login_at` still equals `created_at` gets `isNewUser = true` on the next
sign-in, while the store's row is updated to the new login time. -/
theorem signIn_isNewUser_from_preupdate_row
    (c : CryptoModel) (resp : GoogleFetchOutcome) (clientId secret uuid : String)
    (tU tA tB tI1 tI2 : Nat) (s : Store) (u : UserRow)
    (hok : resp.ok = true)
    (haud : resp.info.aud = clientId)
    (hfound : s.users.find? (fun r => r.google_id == resp.info.sub.getD "") = some u) :
    (authenticateWithGoogle c resp clientId secret uuid tU tA tB tI1 tI2 s).1 =
      .ok { token := generateJWT c u secret tI1 tI2, user := u,
            isNewUser := u.created_at == u.last_login_at } ∧
    (authenticateWithGoogle c resp clientId secret uuid tU tA tB tI1 tI2 s).2 =
      { s with users := s.users.map (fun r =>
          if r.id == u.id then { r with last_login_at := tU } else r) } ∧
    (u.created_at = u.last_login_at →
      ∃ r, (authenticateWithGoogle c resp clientId secret uuid tU tA tB tI1 tI2 s).1 =
        .ok r ∧ r.isNewUser = true) := by
  have hv : verifyGoogleToken resp clientId = .ok resp.info := by
    unfold verifyGoogleToken
    simp [hok, haud]
  have hfc : findOrCreateUser resp.info uuid tU tA tB s =
      (.ok u, { s with users := s.users.map (fun r =>
        if r.id == u.id then { r with last_login_at := tU } else r) }) := by
    unfold findOrCreateUser
    rw [hfound]
  have hmain : authenticateWithGoogle c resp clientId secret uuid tU tA tB tI1 tI2 s =
      (.ok { token := generateJWT c u secret tI1 tI2, user := u,
             isNewUser := u.created_at == u.last_login_at },
       { s with users := s.users.map (fun r =>
           if r.id == u.id then { r with last_login_at := tU } else r) }) := by
    unfold authenticateWithGoogle
    simp only [hv, hfc]
  refine ⟨by rw [hmain], by rw [hmain], fun h => ?_⟩
  refine ⟨{ token := generateJWT c u secret tI1 tI2, user := u,
            isNewUser := u.created_at == u.last_login_at }, by rw [hmain], ?_⟩
  simpa using h

/-- C10 witness: a second sign-in for a stored user whose `last_login_at`
still equals `created_at` returns `isNewUser = true`. -/
theorem signIn_isNewUser_witness :
    (authenticateWithGoogle cryptoC resp7 "cid" "sec" "uu" 77 0 0 0 0 store7).1 =
      .ok { token := generateJWT cryptoC user7 "sec" 0 0, user := user7,
            isNewUser := user7.created_at == user7.last_login_at } ∧
    ∃ r, (authenticateWithGoogle cryptoC resp7 "cid" "sec" "uu" 77 0 0 0 0
      store7).1 = .ok r ∧ r.isNewUser = true :=
  ⟨(signIn_isNewUser_from_preupdate_row cryptoC resp7 "cid" "sec" "uu"
      77 0 0 0 0 store7 user7 rfl rfl rfl).1,
   (signIn_isNewUser_from_preupdate_row cryptoC resp7 "cid" "sec" "uu"
      77 0 0 0 0 store7 user7 rfl rfl rfl).2.2 rfl⟩

/-- Keys end in their mode tag, so equal keys have equal modes, whatever the
hash outputs are. -/
theorem append_modeStr_inj (X Y : String) (m1 m2 : Mode)
    (h : X ++ modeStr m1 = Y ++ modeStr m2) : m1 = m2 := by
  cases m1 <;> cases m2 <;> try rfl
  all_goals
    exfalso
    have h' := congrArg (fun s : String => s.data.reverse.head?) h
    simp [String.data_append, modeStr, List.reverse_append] at h'

/-- C5 counterexample: two requests identical except for their freshness token
(`lastModified`) receive the same cache key — the key is not composed from the
freshness token, refuting that part of the claim. -/
theorem cacheKey_ignores_freshness_token :
    generateCacheKey hashC { reqQ with lastModified := some "2023-01-01" } =
      generateCacheKey hashC { reqQ with lastModified := some "2024-06-06" } ∧
    (some "2023-01-01" : Option String) ≠ some "2024-06-06" :=
  ⟨rfl, by decide⟩

/-- C5 (amended): the cache key is composed of the (truncated) hash of the
trimmed case-folded content, the (truncated) hash of the case-folded locator,
and the mode tag only — the freshness token is not part of the key.
Consequently requests agreeing on normalized content (casing / flanking
whitespace variants) and locator and mode share a key, requests differing in
mode never share a key, and requests differing only in the freshness token
always share a key. -/
theorem cacheKey_normalization_and_mode (h : String → String) (r : AnalysisRequest) :
    (∀ t2, jsToLower (jsTrim t2) = jsToLower (jsTrim r.text) →
      generateCacheKey h { r with text := t2 } = generateCacheKey h r) ∧
    (∀ r2 : AnalysisRequest, r2.mode ≠ r.mode →
      generateCacheKey h r2 ≠ generateCacheKey h r) ∧
    (∀ lm, generateCacheKey h { r with lastModified := lm } = generateCacheKey h r) := by
  refine ⟨?_, ?_, fun lm => rfl⟩
  · intro t2 ht
    simp only [generateCacheKey, ht]
  · intro r2 hm heq
    unfold generateCacheKey at heq
    exact hm (append_modeStr_inj _ _ _ _ heq)

/-- C5 witness: a concrete casing/whitespace variant maps to the same key and
a concrete mode flip maps to a different key. -/
theorem cacheKey_normalization_witness :
    generateCacheKey hashC { reqQ with text := "  Hello World " } =
      generateCacheKey hashC reqQ ∧
    generateCacheKey hashC { reqQ with mode := .deep } ≠
      generateCacheKey hashC reqQ :=
  ⟨(cacheKey_normalization_and_mode hashC reqQ).1 "  Hello World " rfl,
   (cacheKey_normalization_and_mode hashC reqQ).2.1 { reqQ with mode := .deep }
     (by decide)⟩

/-- C7: whenever the primary provider path fails — thrown fetch, non-success
status, missing completion, or unparseable completion, all of which surface as
an `analyzeWithOpenAI` error — the secondary provider is consulted exactly
once: its successful result (with the measured analysis time) is returned, and
if it also fails the call fails with the terminal unavailability error; the
trace shows exactly one call to each provider, so there are no further
retries. -/
theorem provider_fallback_once
    (jsonParse : String → Option ParsedAnalysis) (req : AnalysisRequest)
    (o1 o2 : FetchOutcome) (tS tE : Nat) (e1 : String)
    (hfail : analyzeWithOpenAI jsonParse req o1 = .error e1) :
    performAnalysis jsonParse req o1 o2 tS tE =
      ((match analyzeWithAnthropic jsonParse req o2 with
        | .ok r => .ok (withAnalysisTime r (tE - tS))
        | .error _ => .error "Content analysis failed. Please try again later."),
       [.providerCall "openai", .providerCall "anthropic"]) ∧
    providerCalls (performAnalysis jsonParse req o1 o2 tS tE).2 = 2 := by
  cases ha : analyzeWithAnthropic jsonParse req o2 with
  | ok r =>
    constructor
    · unfold performAnalysis
      simp only [hfail, ha]
    · unfold performAnalysis
      simp only [hfail, ha]
      rfl
  | error e2 =>
    constructor
    · unfold performAnalysis
      simp only [hfail, ha]
    · unfold performAnalysis
      simp only [hfail, ha]
      rfl

/-- C7 witness: with a primary fetch that throws and a secondary whose
completion carries no parseable JSON, both providers fail, each is called once,
and the terminal unavailability error is returned. -/
theorem provider_fallback_once_witness :
    performAnalysis parseNone reqQ .threw (.resp ⟨true, some "x"⟩) 0 5 =
      ((match analyzeWithAnthropic parseNone reqQ (.resp ⟨true, some "x"⟩) with
        | .ok r => .ok (withAnalysisTime r (5 - 0))
        | .error _ => .error "Content analysis failed. Please try again later."),
       [.providerCall "openai", .providerCall "anthropic"]) ∧
    providerCalls (performAnalysis parseNone reqQ .threw
      (.resp ⟨true, some "x"⟩) 0 5).2 = 2 :=
  provider_fallback_once parseNone reqQ .threw (.resp ⟨true, some "x"⟩) 0 5
    "fetch failed" rfl

/-- Cache lookups never touch the usage table. -/
theorem getCache_preserves_usage (key : String) (t : Nat) (s : Store) :
    ((getCache key t s).2).usage = s.usage := by
  unfold getCache
  cases hf : s.cache.find? (fun r =>
      r.url_hash == keyPart key 0 && r.content_hash == keyPart key 1 &&
      r.mode == keyPart key 2) with
  | none => rfl
  | some row =>
    by_cases hage : msPerDay < t - row.created_at
    · simp [hf, hage, deleteCache]
    · simp [hf, hage]

/-- Cache writes never touch the usage table. -/
theorem setCache_preserves_usage (hostOf : String → Option String) (key : String)
    (result : AnalysisResult) (r : AnalysisRequest) (t1 t2 : Nat) (s : Store) :
    (setCache hostOf key result r t1 t2 s).usage = s.usage := by
  unfold setCache
  cases hostOf r.url <;> rfl

/-- When the rate limiter denies, `analyzeContent` fails immediately with the
quota error built from the limiter's `retryAfter`, leaves the store as the
limiter left it, and its trace holds the rate-limit consult alone. -/
theorem analyzeContent_denied (jsonParse : String → Option ParsedAnalysis)
    (hostOf : String → Option String) (h : String → String)
    (req : AnalysisRequest) (userId : String) (o1 o2 : FetchOutcome)
    (tr1 tr2 tr3 tg tS tE tc1 tc2 : Nat) (s : Store)
    (hd : (checkRateLimit userId tr1 tr2 tr3 s).1.allowed = false) :
    analyzeContent jsonParse hostOf h req userId o1 o2 tr1 tr2 tr3 tg tS tE tc1 tc2 s =
      (.error ("Rate limit exceeded. Retry after " ++
         retryAfterText (checkRateLimit userId tr1 tr2 tr3 s).1.retryAfter ++
         " seconds"),
       (checkRateLimit userId tr1 tr2 tr3 s).2, [.rateLimitCheck]) := by
  rcases hrl : checkRateLimit userId tr1 tr2 tr3 s with ⟨rl, s1⟩
  rw [hrl] at hd
  simp only at hd
  unfold analyzeContent
  rw [hrl]
  simp [hd]

/-- When the rate limiter allows and the cache lookup hits, `analyzeContent`
returns the converted row marked 'hit' with no provider call and no cache
write. -/
theorem analyzeContent_hit (jsonParse : String → Option ParsedAnalysis)
    (hostOf : String → Option String) (h : String → String)
    (req : AnalysisRequest) (userId : String) (o1 o2 : FetchOutcome)
    (tr1 tr2 tr3 tg tS tE tc1 tc2 : Nat) (s : Store) (res : AnalysisResult)
    (ha : (checkRateLimit userId tr1 tr2 tr3 s).1.allowed = true)
    (hres : (getCache (generateCacheKey h req) tg
      (checkRateLimit userId tr1 tr2 tr3 s).2).1 = some res) :
    analyzeContent jsonParse hostOf h req userId o1 o2 tr1 tr2 tr3 tg tS tE tc1 tc2 s =
      (.ok { result := res, cacheStatus := "hit" },
       (getCache (generateCacheKey h req) tg
         (checkRateLimit userId tr1 tr2 tr3 s).2).2,
       [.rateLimitCheck, .cacheLookup]) := by
  rcases hrl : checkRateLimit userId tr1 tr2 tr3 s with ⟨rl, s1⟩
  rw [hrl] at ha hres
  simp only at ha hres
  rcases hgc : getCache (generateCacheKey h req) tg s1 with ⟨cached, s2⟩
  rw [hgc] at hres
  simp only at hres
  subst hres
  unfold analyzeContent
  rw [hrl]
  simp [ha, hgc]

/-- When the rate limiter allows, the cache lookup misses, and the provider
pipeline succeeds, `analyzeContent` returns the fresh result marked 'miss' and
writes it through `setCache`. -/
theorem analyzeContent_miss (jsonParse : String → Option ParsedAnalysis)
    (hostOf : String → Option String) (h : String → String)
    (req : AnalysisRequest) (userId : String) (o1 o2 : FetchOutcome)
    (tr1 tr2 tr3 tg tS tE tc1 tc2 : Nat) (s : Store)
    (result : AnalysisResult) (evs : List Event)
    (ha : (checkRateLimit userId tr1 tr2 tr3 s).1.allowed = true)
    (hmiss : (getCache (generateCacheKey h req) tg
      (checkRateLimit userId tr1 tr2 tr3 s).2).1 = none)
    (hpa : performAnalysis jsonParse req o1 o2 tS tE = (.ok result, evs)) :
    analyzeContent jsonParse hostOf h req userId o1 o2 tr1 tr2 tr3 tg tS tE tc1 tc2 s =
      (.ok { result := result, cacheStatus := "miss" },
       setCache hostOf (generateCacheKey h req) result req tc1 tc2
         (getCache (generateCacheKey h req) tg
           (checkRateLimit userId tr1 tr2 tr3 s).2).2,
       (Event.rateLimitCheck :: Event.cacheLookup :: evs) ++ [Event.cacheWrite]) := by
  rcases hrl : checkRateLimit userId tr1 tr2 tr3 s with ⟨rl, s1⟩
  rw [hrl] at ha hmiss
  simp only at ha hmiss
  rcases hgc : getCache (generateCacheKey h req) tg s1 with ⟨cached, s2⟩
  rw [hgc] at hmiss
  simp only at hmiss
  subst hmiss
  unfold analyzeContent
  rw [hrl]
  simp [ha, hgc, hpa]

/-- Every run's trace begins with the rate-limit consult: the limiter is
consulted before any cache or provider activity. -/
theorem analyzeContent_trace_starts_with_rateLimit
    (jsonParse : String → Option ParsedAnalysis)
    (hostOf : String → Option String) (h : String → String)
    (req : AnalysisRequest) (userId : String) (o1 o2 : FetchOutcome)
    (tr1 tr2 tr3 tg tS tE tc1 tc2 : Nat) (s : Store) :
    (analyzeContent jsonParse hostOf h req userId o1 o2 tr1 tr2 tr3 tg tS tE
      tc1 tc2 s).2.2.head? = some .rateLimitCheck := by
  unfold analyzeContent
  rcases checkRateLimit userId tr1 tr2 tr3 s with ⟨rl, s1⟩
  cases hal : rl.allowed with
  | false => simp [hal]
  | true =>
    simp only [hal]
    rcases getCache (generateCacheKey h req) tg s1 with ⟨cached, s2⟩
    cases cached with
    | some res => simp
    | none =>
      rcases performAnalysis jsonParse req o1 o2 tS tE with ⟨pr, evs⟩
      cases pr <;> simp

/-- C8: within one `analyzeContent` call the rate limiter is consulted before
any cache activity (every trace begins with the rate-limit consult, and a
cache hit still ends with the limiter's post-increment usage table — a hit
consumes quota); whenever the limiter returns `allowed = false` the call fails
with the quota error carrying the limiter's `retryAfter` — a concrete
seconds-until-midnight value whenever the user id is non-empty — with no cache
lookup, no cache write, and no provider call in the trace. -/
theorem quota_checked_before_cache (jsonParse : String → Option ParsedAnalysis)
    (hostOf : String → Option String) (h : String → String)
    (req : AnalysisRequest) (userId : String) (o1 o2 : FetchOutcome)
    (tr1 tr2 tr3 tg tS tE tc1 tc2 : Nat) (s : Store) :
    ((analyzeContent jsonParse hostOf h req userId o1 o2 tr1 tr2 tr3 tg tS tE
        tc1 tc2 s).2.2.head? = some .rateLimitCheck) ∧
    ((checkRateLimit userId tr1 tr2 tr3 s).1.allowed = false →
      analyzeContent jsonParse hostOf h req userId o1 o2 tr1 tr2 tr3 tg tS tE tc1 tc2 s =
        (.error ("Rate limit exceeded. Retry after " ++
           retryAfterText (checkRateLimit userId tr1 tr2 tr3 s).1.retryAfter ++
           " seconds"),
         (checkRateLimit userId tr1 tr2 tr3 s).2, [.rateLimitCheck])) ∧
    (userId ≠ "" → (checkRateLimit userId tr1 tr2 tr3 s).1.allowed = false →
      (checkRateLimit userId tr1 tr2 tr3 s).1.retryAfter =
        some (ceilDiv (nextMidnight tr2 - tr3) 1000)) ∧
    ((checkRateLimit userId tr1 tr2 tr3 s).1.allowed = true →
      ∀ res, (getCache (generateCacheKey h req) tg
          (checkRateLimit userId tr1 tr2 tr3 s).2).1 = some res →
        ((analyzeContent jsonParse hostOf h req userId o1 o2 tr1 tr2 tr3 tg tS tE
            tc1 tc2 s).2.1).usage = ((checkRateLimit userId tr1 tr2 tr3 s).2).usage ∧
        (analyzeContent jsonParse hostOf h req userId o1 o2 tr1 tr2 tr3 tg tS tE
            tc1 tc2 s).2.2 = [.rateLimitCheck, .cacheLookup]) := by
  refine ⟨analyzeContent_trace_starts_with_rateLimit jsonParse hostOf h req userId
    o1 o2 tr1 tr2 tr3 tg tS tE tc1 tc2 s, ?_, ?_, ?_⟩
  · intro hd
    exact analyzeContent_denied jsonParse hostOf h req userId o1 o2
      tr1 tr2 tr3 tg tS tE tc1 tc2 s hd
  · intro huid hfalse
    have huid' : (userId == "") = false := by simp [huid]
    unfold checkRateLimit at hfalse ⊢
    by_cases hcnt : DAILY_LIMIT ≤
      ((findUsage s userId (dayKey tr1)).map (·.daily_count)).getD 0
    · simp [huid', hcnt]
    · simp [huid', hcnt] at hfalse
  · intro hallow res hres
    have heq := analyzeContent_hit jsonParse hostOf h req userId o1 o2
      tr1 tr2 tr3 tg tS tE tc1 tc2 s res hallow hres
    rw [heq]
    exact ⟨getCache_preserves_usage _ _ _, rfl⟩

/-- C8 witness: a user with an exhausted counter is denied — the call returns
only the quota error with the limiter's concrete retry delay, the store is
untouched, and the trace shows the rate-limit consult alone. -/
theorem quota_checked_before_cache_witness :
    analyzeContent parseOk hostC hashC reqQ "u1" .threw .threw 0 0 0 0 0 0 0 0 storeRL =
      (.error ("Rate limit exceeded. Retry after " ++
         retryAfterText (checkRateLimit "u1" 0 0 0 storeRL).1.retryAfter ++
         " seconds"),
       (checkRateLimit "u1" 0 0 0 storeRL).2, [.rateLimitCheck]) ∧
    (checkRateLimit "u1" 0 0 0 storeRL).1.retryAfter =
      some (ceilDiv (nextMidnight 0 - 0) 1000) :=
  ⟨(quota_checked_before_cache parseOk hostC hashC reqQ "u1" .threw .threw
      0 0 0 0 0 0 0 0 storeRL).2.1 rfl,
   (quota_checked_before_cache parseOk hostC hashC reqQ "u1" .threw .threw
      0 0 0 0 0 0 0 0 storeRL).2.2.1 (by decide) rfl⟩

/-- On an empty usage table a non-empty user is allowed with count 1, and — the
C2 slip — the store is returned unchanged (no row is created). -/
theorem checkRateLimit_emptyUsage (userId : String) (t1 t2 t3 : Nat) (s : Store)
    (husage : s.usage = []) (huid : userId ≠ "") :
    checkRateLimit userId t1 t2 t3 s =
      ({ allowed := true, retryAfter := none, message := none,
         currentCount := some 1 }, s) := by
  have huid' : (userId == "") = false := by simp [huid]
  unfold checkRateLimit findUsage incrementUsage dbUpdateUsage
  rcases s with ⟨us, bl, ug, ca⟩
  simp only at husage
  subst husage
  simp [huid', DAILY_LIMIT]

/-- Looking the key up right after `setCache` wrote it (within TTL, valid URL,
previously empty cache table) returns the stored payload with
`metadata.cacheCreatedAt` set to the write-time clock read. -/
theorem getCache_after_setCache
    (hostOf : String → Option String) (key : String) (result : AnalysisResult)
    (req : AnalysisRequest) (tc1 tc2 tg' : Nat) (s : Store) (d : String)
    (hcache : s.cache = []) (hhost : hostOf req.url = some d)
    (httl : tg' - tc2 ≤ msPerDay) :
    (getCache key tg' (setCache hostOf key result req tc1 tc2 s)).1 =
      some { result with metadata :=
        { result.metadata with cacheCreatedAt := some tc2 } } := by
  unfold setCache getCache
  rw [hhost]
  simp [hcache, Nat.not_lt.mpr httl, convertCacheEntryToResult]

/-- C6 (amended): two `analyzeContent` calls with identical locator, content
and mode within the TTL window — first a miss, then a hit — return identical
classification payloads (classification, confidence level and score,
indicators, reasoning, word count, provider, analysis time) and the second
call makes zero provider calls; but the responses are not bit-identical: the
cached response carries `metadata.cacheCreatedAt` (and is annotated 'hit'
instead of 'miss'). -/
theorem classify_twice_within_ttl
    (jsonParse : String → Option ParsedAnalysis) (hostOf : String → Option String)
    (h : String → String) (req : AnalysisRequest) (userId : String)
    (o1 o2 o1' o2' : FetchOutcome)
    (tr1 tr2 tr3 tg tS tE tc1 tc2 tr1' tr2' tr3' tg' tS' tE' tc1' tc2' : Nat)
    (s : Store) (result : AnalysisResult) (evs : List Event) (d : String)
    (husage : s.usage = []) (hcache : s.cache = []) (huid : userId ≠ "")
    (hpa : performAnalysis jsonParse req o1 o2 tS tE = (.ok result, evs))
    (hhost : hostOf req.url = some d)
    (httl : tg' - tc2 ≤ msPerDay) :
    (analyzeContent jsonParse hostOf h req userId o1 o2 tr1 tr2 tr3 tg tS tE
        tc1 tc2 s).1 = .ok { result := result, cacheStatus := "miss" } ∧
    (analyzeContent jsonParse hostOf h req userId o1' o2' tr1' tr2' tr3' tg'
        tS' tE' tc1' tc2'
        (analyzeContent jsonParse hostOf h req userId o1 o2 tr1 tr2 tr3 tg tS tE
          tc1 tc2 s).2.1).1 =
      .ok { result := { result with metadata :=
              { result.metadata with cacheCreatedAt := some tc2 } },
            cacheStatus := "hit" } ∧
    (analyzeContent jsonParse hostOf h req userId o1' o2' tr1' tr2' tr3' tg'
        tS' tE' tc1' tc2'
        (analyzeContent jsonParse hostOf h req userId o1 o2 tr1 tr2 tr3 tg tS tE
          tc1 tc2 s).2.1).2.2 = [.rateLimitCheck, .cacheLookup] ∧
    providerCalls (analyzeContent jsonParse hostOf h req userId o1' o2' tr1' tr2'
        tr3' tg' tS' tE' tc1' tc2'
        (analyzeContent jsonParse hostOf h req userId o1 o2 tr1 tr2 tr3 tg tS tE
          tc1 tc2 s).2.1).2.2 = 0 ∧
    corePayload { result with metadata :=
        { result.metadata with cacheCreatedAt := some tc2 } } =
      corePayload result := by
  have hrl1 := checkRateLimit_emptyUsage userId tr1 tr2 tr3 s husage huid
  have hrl1a : (checkRateLimit userId tr1 tr2 tr3 s).1.allowed = true := by
    rw [hrl1]
  have hgc1 : getCache (generateCacheKey h req) tg s = (none, s) := by
    unfold getCache
    simp [hcache]
  have hmiss : (getCache (generateCacheKey h req) tg
      (checkRateLimit userId tr1 tr2 tr3 s).2).1 = none := by
    rw [hrl1, hgc1]
  have hc1 := analyzeContent_miss jsonParse hostOf h req userId o1 o2
    tr1 tr2 tr3 tg tS tE tc1 tc2 s result evs hrl1a hmiss hpa
  have hs3 : (analyzeContent jsonParse hostOf h req userId o1 o2 tr1 tr2 tr3 tg
      tS tE tc1 tc2 s).2.1 =
      setCache hostOf (generateCacheKey h req) result req tc1 tc2 s := by
    rw [hc1]
    simp only []
    rw [hrl1, hgc1]
  have hu3 : (setCache hostOf (generateCacheKey h req) result req tc1 tc2 s).usage
      = [] := by
    rw [setCache_preserves_usage, husage]
  have hrl2 := checkRateLimit_emptyUsage userId tr1' tr2' tr3'
    (setCache hostOf (generateCacheKey h req) result req tc1 tc2 s) hu3 huid
  have hrl2a : (checkRateLimit userId tr1' tr2' tr3'
      (setCache hostOf (generateCacheKey h req) result req tc1 tc2 s)).1.allowed
      = true := by
    rw [hrl2]
  have hhit : (getCache (generateCacheKey h req) tg'
      (checkRateLimit userId tr1' tr2' tr3'
        (setCache hostOf (generateCacheKey h req) result req tc1 tc2 s)).2).1 =
      some { result with metadata :=
        { result.metadata with cacheCreatedAt := some tc2 } } := by
    rw [hrl2]
    exact getCache_after_setCache hostOf (generateCacheKey h req) result req
      tc1 tc2 tg' s d hcache hhost httl
  have hc2 := analyzeContent_hit jsonParse hostOf h req userId o1' o2'
    tr1' tr2' tr3' tg' tS' tE' tc1' tc2'
    (setCache hostOf (generateCacheKey h req) result req tc1 tc2 s)
    { result with metadata := { result.metadata with cacheCreatedAt := some tc2 } }
    hrl2a hhit
  refine ⟨by rw [hc1], ?_, ?_, ?_, rfl⟩
  · rw [hs3, hc2]
  · rw [hs3, hc2]
  · rw [hs3, hc2]
    rfl

/-- C6 witness: the amended theorem evaluated on the concrete pair of runs
`run1` (miss) and `run2` (hit within TTL). -/
theorem classify_twice_witness :
    run1.1 = .ok { result := resultX, cacheStatus := "miss" } ∧
    run2.1 = .ok { result := { resultX with metadata :=
                     { resultX.metadata with cacheCreatedAt := some 7 } },
                   cacheStatus := "hit" } ∧
    providerCalls run2.2.2 = 0 :=
  ⟨(classify_twice_within_ttl parseOk hostC hashC reqQ "u1"
      (.resp { ok := true, analysis := some "x" }) .threw
      (.resp { ok := true, analysis := some "x" }) .threw
      0 0 0 0 0 5 0 7 1 1 1 8 9 9 9 9 Store.empty resultX
      [.providerCall "openai"] "a" rfl rfl (by decide) rfl rfl (by decide)).1,
   (classify_twice_within_ttl parseOk hostC hashC reqQ "u1"
      (.resp { ok := true, analysis := some "x" }) .threw
      (.resp { ok := true, analysis := some "x" }) .threw
      0 0 0 0 0 5 0 7 1 1 1 8 9 9 9 9 Store.empty resultX
      [.providerCall "openai"] "a" rfl rfl (by decide) rfl rfl (by decide)).2.1,
   (classify_twice_within_ttl parseOk hostC hashC reqQ "u1"
      (.resp { ok := true, analysis := some "x" }) .threw
      (.resp { ok := true, analysis := some "x" }) .threw
      0 0 0 0 0 5 0 7 1 1 1 8 9 9 9 9 Store.empty resultX
      [.providerCall "openai"] "a" rfl rfl (by decide) rfl rfl (by decide)).2.2.2.1⟩

/-- C6 counterexample: the two payloads of `run1` and `run2` are not
bit-identical — the cached response of `run2` carries
`metadata.cacheCreatedAt = some 7` (and `cacheStatus` 'hit'), while `run1`'s
fresh response has no `cacheCreatedAt` — even though the second call made zero
provider calls. -/
theorem classify_twice_not_bit_identical :
    run1.1 ≠ run2.1 ∧
    run1.1.toOption.map (fun r => r.result.metadata.cacheCreatedAt) = some none ∧
    run2.1.toOption.map (fun r => r.result.metadata.cacheCreatedAt) =
      some (some 7) ∧
    providerCalls run2.2.2 = 0 :=
  ⟨fun h => absurd
      (congrArg (fun x : Except String ApiResponse =>
        x.toOption.map (fun r => r.cacheStatus)) h) (by decide),
   rfl, rfl, rfl⟩
